import Mathlib

/-
Verification of the s3-proxy forwarding pipeline (src/main.rs).

The source is a hyper-based reverse proxy.  The pure core modelled here:
  - construct_uri (src/main.rs lines 259-265): rebuilds the forwarded URI from
    the configured base URI and the incoming request URI;
  - proxy_handler (src/main.rs lines 164-257): validation, URI construction,
    body buffering, and the bounded retry loop with jittered exponential
    backoff and per-attempt timeout classification;
  - handle_request (src/main.rs lines 128-162): shutdown gate, health check,
    dispatch to proxy_handler.

Network nondeterminism is captured by an oracle `upstream : Nat -> AttemptOutcome`
giving the outcome of each attempt (response before timeout, transport error,
or timeout), and the jitter drawn by rand::thread_rng().gen_range(0..1000) is
an oracle `jitter : Nat -> Nat` (constrained to be < 1000 where it matters).
The loop result records the response together with the trace of forwarded
requests actually sent and the backoff sleeps performed, so that claims about
attempt counts, header/body transformation and sleep durations are statable.
-/

/-- UTF-8 bytes of a string, as natural numbers; models Rust str/Body bytes. -/
def bytesOfString (s : String) : List Nat :=
  s.toUTF8.toList.map (fun b => b.toNat)

/-- Model of http::uri::PathAndQuery: a path and an optional query string. -/
structure PathAndQuery where
  path : String
  query : Option String
deriving DecidableEq

/-- Model of http::uri::Parts / Uri: optional scheme, optional authority
(host and optional port, kept verbatim as one string), optional path-and-query. -/
structure UriParts where
  scheme : Option String
  authority : Option String
  pathAndQuery : Option PathAndQuery
deriving DecidableEq

/-- Model of Uri::path(): the path component, "/" when the stored path is
empty (http::uri::PathAndQuery::path returns "/" for an empty path). -/
def uriPath (u : UriParts) : String :=
  match u.pathAndQuery with
  | some pq => if pq.path = "" then "/" else pq.path
  | none => "/"

/-- Model of Uri::query(): the query component when present. -/
def uriQuery (u : UriParts) : Option String :=
  u.pathAndQuery.bind (fun pq => pq.query)

/-- Rendering of a Uri as a string, as http's Display does:
scheme "://" authority path "?" query, omitting absent components. -/
def uriToString (u : UriParts) : String :=
  (match u.scheme with | some s => s ++ "://" | none => "") ++
  (match u.authority with | some a => a | none => "") ++
  (match u.pathAndQuery with
   | some pq => pq.path ++ (match pq.query with | some q => "?" ++ q | none => "")
   | none => "")

/-- Split a character list at the first question mark: the part before it and,
when a question mark occurs, the part after it.  Models how
http::uri::PathAndQuery::from_str separates path from query. -/
def splitCharsAtQM : List Char → List Char × Option (List Char)
  | [] => ([], none)
  | c :: cs =>
    if c = '?' then ([], some cs)
    else
      let r := splitCharsAtQM cs
      (c :: r.1, r.2)

/-- Model of `format!("{}{}", path, query).parse::<PathAndQuery>()` at
src/main.rs line 263: split the string at the first question mark.  The
source unwraps the parse; its inputs come from already-parsed URIs, whose
path and query characters always re-parse, so the parse is modelled total. -/
def parsePathAndQuery (s : String) : PathAndQuery :=
  let r := splitCharsAtQM s.data
  ⟨⟨r.1⟩, r.2.map (fun l => ⟨l⟩)⟩

/-- The syntactic validity check http::Uri::from_parts performs: with a scheme,
both authority and path-and-query must be present; without a scheme, authority
together with path-and-query is also rejected. -/
def uriPartsValid (p : UriParts) : Bool :=
  if p.scheme.isSome then p.authority.isSome && p.pathAndQuery.isSome
  else !(p.authority.isSome && p.pathAndQuery.isSome)

/-- Model of http::Uri::from_parts at src/main.rs line 264: rejects parts that
do not assemble into a syntactically valid URI, otherwise returns them. -/
def uriFromParts (p : UriParts) : Except String UriParts :=
  if p.scheme.isSome then
    if p.authority.isNone then .error "scheme present but authority missing"
    else if p.pathAndQuery.isNone then .error "scheme present but path missing"
    else .ok p
  else if p.authority.isSome && p.pathAndQuery.isSome then
    .error "authority present but scheme missing"
  else .ok p

/-- The parts construct_uri assembles (src/main.rs lines 260-263): the base
URI's parts with path_and_query replaced by the incoming path concatenated
with "?" plus the incoming query when a query is present. -/
def rewrittenParts (base_uri request_uri : UriParts) : UriParts :=
  let path := uriPath request_uri
  let query := match uriQuery request_uri with
    | some q => "?" ++ q
    | none => ""
  { base_uri with pathAndQuery := some (parsePathAndQuery (path ++ query)) }

/-- Model of construct_uri (src/main.rs lines 259-265). -/
def construct_uri (base_uri request_uri : UriParts) : Except String UriParts :=
  uriFromParts (rewrittenParts base_uri request_uri)

/-- An incoming request as proxy_handler sees it: method, origin-form URI,
header list (one entry per header value, as HeaderMap iteration yields), and
the body bytes (to_bytes buffers them once, src/main.rs line 198). -/
structure IncomingRequest where
  method : String
  uri : UriParts
  headers : List (String × String)
  body : List Nat
deriving DecidableEq

/-- A request as built and sent on one attempt (src/main.rs lines 201-211). -/
structure ForwardedRequest where
  method : String
  uri : UriParts
  headers : List (String × String)
  body : List Nat
deriving DecidableEq

/-- A response as the proxy produces it: Response::builder().status(..).body(..)
adds no headers, so the header list records exactly the headers set. -/
structure HttpResponse where
  status : Nat
  headers : List (String × String)
  body : List Nat
deriving DecidableEq

/-- Outcome of one network attempt, i.e. of
`timeout(REQUEST_TIMEOUT, client.request(new_req)).await` at line 214:
Ok(Ok(resp)) a response before the timeout (with its status, headers, body),
Ok(Err(e)) a transport error, Err(_) the timeout elapsed. -/
inductive AttemptOutcome where
  | success (status : Nat) (headers : List (String × String)) (body : List Nat)
  | transportError
  | timedOut
deriving DecidableEq

/-- Result of the retry loop: the response returned, the forwarded requests
sent (in order), and the backoff sleeps performed as pairs of the attempt
index demanding the sleep and the slept duration in milliseconds. -/
structure LoopResult where
  response : HttpResponse
  sent : List ForwardedRequest
  sleeps : List (Nat × Nat)
deriving DecidableEq

/-- MAX_RETRIES constant, src/main.rs line 21. -/
def MAX_RETRIES : Nat := 3

/-- ASCII-lowercase a string characterwise (Char.toLower folds exactly the
ASCII uppercase range, as Rust's eq_ignore_ascii_case does). -/
def lowerString (s : String) : String :=
  ⟨s.data.map Char.toLower⟩

/-- Case-insensitive comparison of a header name against "host", the semantics
of `name != "host"` at line 206 (HeaderName's PartialEq against strings folds
ASCII case). -/
def isHostName (s : String) : Bool :=
  lowerString s == "host"

/-- Header transformation at src/main.rs lines 205-209: forward every header
whose name is not (case-insensitively) "host". -/
def forwardHeaders (headers : List (String × String)) : List (String × String) :=
  headers.filter (fun h => !(isHostName h.1))

/-- Body of the synthesized 502 response (src/main.rs line 240). -/
def badGatewayBody : List Nat := bytesOfString "Bad Gateway"

/-- Body of the synthesized 504 response (src/main.rs line 249). -/
def gatewayTimeoutBody : List Nat := bytesOfString "Gateway Timeout"

/-- Body of the synthesized 500 response (src/main.rs lines 158, 191). -/
def internalServerErrorBody : List Nat := bytesOfString "Internal Server Error"

/-- The retry loop `for retry in 0..MAX_RETRIES` (src/main.rs lines 200-254),
as a recursion on the number of loop iterations remaining (`fuel`), starting
at iteration `retry`.  Each iteration rebuilds the forwarded request from the
method, rewritten URI, headers and buffered body captured before the loop
(lines 196-198), exactly as the source clones them per iteration.  `none`
models falling out of the loop into `unreachable!()` (line 256).
On a response before timeout the loop returns it with the upstream status and
the fully read upstream body and no copied headers; on a transport error
before the last allowed attempt it sleeps `2^retry * 1000 + jitter retry`
milliseconds and continues, on the last attempt it returns 502; on a timeout
it continues with no sleep, returning 504 on the last attempt. -/
def forwardLoopAux (upstream : Nat → AttemptOutcome) (jitter : Nat → Nat)
    (method : String) (uri : UriParts) (headers : List (String × String))
    (body_bytes : List Nat) : Nat → Nat → Option LoopResult
  | _, 0 => none
  | retry, fuel + 1 =>
    let new_req : ForwardedRequest := ⟨method, uri, forwardHeaders headers, body_bytes⟩
    match upstream retry with
    | .success st _respHeaders respBody =>
      some ⟨⟨st, [], respBody⟩, [new_req], []⟩
    | .transportError =>
      if retry < MAX_RETRIES - 1 then
        match forwardLoopAux upstream jitter method uri headers body_bytes (retry + 1) fuel with
        | some r => some ⟨r.response, new_req :: r.sent,
            (retry, 2 ^ retry * 1000 + jitter retry) :: r.sleeps⟩
        | none => none
      else
        some ⟨⟨502, [], badGatewayBody⟩, [new_req], []⟩
    | .timedOut =>
      if retry = MAX_RETRIES - 1 then
        some ⟨⟨504, [], gatewayTimeoutBody⟩, [new_req], []⟩
      else
        match forwardLoopAux upstream jitter method uri headers body_bytes (retry + 1) fuel with
        | some r => some ⟨r.response, new_req :: r.sent, r.sleeps⟩
        | none => none

/-- Model of is_valid_s3_request (src/main.rs lines 267-272): a permissive
placeholder accepting every request. -/
def is_valid_s3_request (_req : IncomingRequest) : Bool :=
  true

/-- Model of proxy_handler (src/main.rs lines 164-257): reject invalid
requests with 400, surface URI construction failure as 500 with no attempt,
otherwise buffer the body once and run the retry loop from attempt 0 with
MAX_RETRIES iterations available. -/
def proxy_handler (req : IncomingRequest) (s3_base_uri : UriParts)
    (upstream : Nat → AttemptOutcome) (jitter : Nat → Nat) : Option LoopResult :=
  if is_valid_s3_request req = false then
    some ⟨⟨400, [], bytesOfString "Invalid S3 request"⟩, [], []⟩
  else
    match construct_uri s3_base_uri req.uri with
    | .error _ => some ⟨⟨500, [], internalServerErrorBody⟩, [], []⟩
    | .ok uri =>
      let body_bytes := req.body
      forwardLoopAux upstream jitter req.method uri req.headers body_bytes 0 MAX_RETRIES

/-- Model of handle_request (src/main.rs lines 128-162): when the shutdown
flag is set, reply 503 at once; otherwise answer the health check path with
200 "OK"; otherwise run proxy_handler.  The boolean in the result records
whether the forwarding engine (proxy_handler) was invoked. -/
def handle_request (stopping : Bool) (req : IncomingRequest)
    (s3_base_uri : UriParts) (upstream : Nat → AttemptOutcome)
    (jitter : Nat → Nat) : Option (HttpResponse × Bool) :=
  if stopping then
    some (⟨503, [], bytesOfString "Server is shutting down"⟩, false)
  else if uriPath req.uri = "/healthz" then
    some (⟨200, [], bytesOfString "OK"⟩, false)
  else
    (proxy_handler req s3_base_uri upstream jitter).map (fun r => (r.response, true))

/-- Example inputs used by the witness theorems below. -/
def exBase : UriParts := ⟨some "https", some "s3.example", some ⟨"/", none⟩⟩

def exReqUri : UriParts := ⟨none, none, some ⟨"/bucket/key", none⟩⟩

def exHeaders : List (String × String) := [("host", "proxy.local"), ("x-amz-date", "today")]

def exBody : List Nat := [104, 105]

def exReq : IncomingRequest := ⟨"GET", exReqUri, exHeaders, exBody⟩

def exUri : UriParts := ⟨some "https", some "s3.example", some ⟨"/bucket/key", none⟩⟩

def exFwd : ForwardedRequest := ⟨"GET", exUri, [("x-amz-date", "today")], exBody⟩

/-- A base whose parts have an authority but no scheme: Uri::from_parts
rejects it once a path-and-query is attached. -/
def exBadBase : UriParts := ⟨none, some "s3.example", none⟩

/-- Upstream oracle: every attempt fails with a transport error. -/
def allTransport : Nat → AttemptOutcome := fun _ => .transportError

/-- Upstream oracle: every attempt times out. -/
def allTimeout : Nat → AttemptOutcome := fun _ => .timedOut

/-- Upstream oracle: transport errors on attempts 0 and 1, then a 200 response. -/
def twoFailThenOk : Nat → AttemptOutcome := fun n =>
  if n < 2 then .transportError else .success 200 [("content-type", "text/plain")] [111, 107]

/-- Upstream oracle: a 200 response on the first attempt. -/
def immediateOk : Nat → AttemptOutcome := fun _ =>
  .success 200 [("content-type", "text/plain")] [111, 107]

/-- Jitter oracle drawing 0 every time. -/
def zeroJitter : Nat → Nat := fun _ => 0

/-- Appending strings appends their character lists. -/
theorem string_append_data (s t : String) : (s ++ t).data = s.data ++ t.data := by
  cases s
  cases t
  rfl

/-- Splitting a list without a question mark yields the whole list, no query. -/
theorem splitCharsAtQM_of_not_mem (l : List Char) (h : ('?' : Char) ∉ l) :
    splitCharsAtQM l = (l, none) := by
  induction l with
  | nil => rfl
  | cons c cs ih =>
    have hc : ¬ c = '?' := fun hc => h (hc ▸ List.mem_cons_self c cs)
    have hcs : ('?' : Char) ∉ cs := fun hm => h (List.mem_cons_of_mem c hm)
    simp [splitCharsAtQM, hc, ih hcs]

/-- Splitting at the first question mark of `l ++ '?' :: m` recovers `l` and `m`
when `l` has no question mark. -/
theorem splitCharsAtQM_append (l m : List Char) (h : ('?' : Char) ∉ l) :
    splitCharsAtQM (l ++ '?' :: m) = (l, some m) := by
  induction l with
  | nil => simp [splitCharsAtQM]
  | cons c cs ih =>
    have hc : ¬ c = '?' := fun hc => h (hc ▸ List.mem_cons_self c cs)
    have hcs : ('?' : Char) ∉ cs := fun hm => h (List.mem_cons_of_mem c hm)
    simp [splitCharsAtQM, hc, ih hcs]

/-- Parts that fail the from_parts validity check make uriFromParts error. -/
theorem uriFromParts_of_invalid (p : UriParts) (h : uriPartsValid p = false) :
    ∃ e, uriFromParts p = .error e := by
  cases p with
  | mk sch auth pq =>
    cases sch <;> cases auth <;> cases pq <;>
      simp_all [uriPartsValid, uriFromParts]

/-- Parts that pass the from_parts validity check are returned unchanged. -/
theorem uriFromParts_of_valid (p : UriParts) (h : uriPartsValid p = true) :
    uriFromParts p = .ok p := by
  cases p with
  | mk sch auth pq =>
    cases sch <;> cases auth <;> cases pq <;>
      simp_all [uriPartsValid, uriFromParts]

/-- C8: construct_uri preserves the base URI's scheme and authority (host and
port) and replaces any path/query of the base with the incoming path plus,
when a query is present, "?" followed by the incoming query; in particular
base https://store.example:443 with incoming path /bucket/key and query x=1
yields exactly https://store.example:443/bucket/key?x=1. -/
theorem construct_uri_rewrites (sch auth : String) (bpq : Option PathAndQuery)
    (p : String) (q : Option String) (hq : ('?' : Char) ∉ p.data) (hp : p ≠ "") :
    construct_uri ⟨some sch, some auth, bpq⟩ ⟨none, none, some ⟨p, q⟩⟩ =
      .ok ⟨some sch, some auth, some ⟨p, q⟩⟩ ∧
    construct_uri ⟨some "https", some "store.example:443", some ⟨"/", none⟩⟩
        ⟨none, none, some ⟨"/bucket/key", some "x=1"⟩⟩ =
      .ok ⟨some "https", some "store.example:443", some ⟨"/bucket/key", some "x=1"⟩⟩ ∧
    uriToString ⟨some "https", some "store.example:443", some ⟨"/bucket/key", some "x=1"⟩⟩ =
      "https://store.example:443/bucket/key?x=1" := by
  refine ⟨?_, by rfl, by rfl⟩
  have hpq : parsePathAndQuery (p ++ (match q with | some qs => "?" ++ qs | none => "")) =
      ⟨p, q⟩ := by
    cases q with
    | none =>
      simp only [parsePathAndQuery, string_append_data, List.append_nil,
        splitCharsAtQM_of_not_mem p.data hq]
      rfl
    | some qs =>
      simp only [parsePathAndQuery, string_append_data, List.singleton_append]
      rw [splitCharsAtQM_append p.data qs.data hq]
      rfl
  show uriFromParts (rewrittenParts _ _) = _
  have hrw : rewrittenParts ⟨some sch, some auth, bpq⟩ ⟨none, none, some ⟨p, q⟩⟩ =
      ⟨some sch, some auth, some ⟨p, q⟩⟩ := by
    simp only [rewrittenParts, uriPath, uriQuery, Option.bind, hp, if_false]
    cases q with
    | none => simpa using hpq
    | some qs => simpa using hpq
  rw [hrw]
  exact uriFromParts_of_valid _ (by simp [uriPartsValid])

/-- C8 witness: the claim's own example, scheme https, authority
store.example:443, path /bucket/key, query x=1. -/
theorem construct_uri_rewrites_witness :
    construct_uri ⟨some "https", some "store.example:443", some ⟨"/", none⟩⟩
        ⟨none, none, some ⟨"/bucket/key", some "x=1"⟩⟩ =
      .ok ⟨some "https", some "store.example:443", some ⟨"/bucket/key", some "x=1"⟩⟩ ∧
    uriToString ⟨some "https", some "store.example:443", some ⟨"/bucket/key", some "x=1"⟩⟩ =
      "https://store.example:443/bucket/key?x=1" := by
  have h := construct_uri_rewrites "https" "store.example:443" (some ⟨"/", none⟩)
    "/bucket/key" (some "x=1") (by decide) (by decide)
  exact ⟨h.1, h.2.2⟩

theorem forwardLoopAux_eq_succ (u : Nat → AttemptOutcome) (j : Nat → Nat)
    (m : String) (uri : UriParts) (hs : List (String × String)) (b : List Nat)
    (retry fuel : Nat) :
    forwardLoopAux u j m uri hs b retry (fuel + 1) =
      (let new_req : ForwardedRequest := ⟨m, uri, forwardHeaders hs, b⟩
      match u retry with
      | .success st _respHeaders respBody =>
        some ⟨⟨st, [], respBody⟩, [new_req], []⟩
      | .transportError =>
        if retry < MAX_RETRIES - 1 then
          match forwardLoopAux u j m uri hs b (retry + 1) fuel with
          | some r => some ⟨r.response, new_req :: r.sent,
              (retry, 2 ^ retry * 1000 + j retry) :: r.sleeps⟩
          | none => none
        else
          some ⟨⟨502, [], badGatewayBody⟩, [new_req], []⟩
      | .timedOut =>
        if retry = MAX_RETRIES - 1 then
          some ⟨⟨504, [], gatewayTimeoutBody⟩, [new_req], []⟩
        else
          match forwardLoopAux u j m uri hs b (retry + 1) fuel with
          | some r => some ⟨r.response, new_req :: r.sent, r.sleeps⟩
          | none => none) := rfl

theorem forwardLoopAux_total (u : Nat → AttemptOutcome) (j : Nat → Nat) (m : String)
    (uri : UriParts) (hs : List (String × String)) (b : List Nat) :
    ∀ fuel retry, retry + fuel = MAX_RETRIES → 0 < fuel →
      ∃ r, forwardLoopAux u j m uri hs b retry fuel = some r ∧ r.sent.length ≤ fuel := by
  intro fuel
  induction fuel with
  | zero =>
    intro retry _ h0
    exact absurd h0 (by omega)
  | succ f ih =>
    intro retry hsum _
    have hsum3 : retry + (f + 1) = 3 := by simpa [MAX_RETRIES] using hsum
    rw [forwardLoopAux_eq_succ]
    cases hu : u retry with
    | success st rh rb =>
      exact ⟨⟨⟨st, [], rb⟩, [⟨m, uri, forwardHeaders hs, b⟩], []⟩, by simp, by simp⟩
    | transportError =>
      by_cases hlt : retry < MAX_RETRIES - 1
      · have hf : 0 < f := by
          simp only [MAX_RETRIES] at hlt
          omega
        obtain ⟨r, hrec, hlen⟩ := ih (retry + 1) (by simp only [MAX_RETRIES]; omega) hf
        refine ⟨⟨r.response, ⟨m, uri, forwardHeaders hs, b⟩ :: r.sent,
          (retry, 2 ^ retry * 1000 + j retry) :: r.sleeps⟩, ?_, ?_⟩
        · simp [hlt, hrec]
        · simp
          omega
      · exact ⟨⟨⟨502, [], badGatewayBody⟩, [⟨m, uri, forwardHeaders hs, b⟩], []⟩,
          by simp [hlt], by simp⟩
    | timedOut =>
      by_cases heq : retry = MAX_RETRIES - 1
      · exact ⟨⟨⟨504, [], gatewayTimeoutBody⟩, [⟨m, uri, forwardHeaders hs, b⟩], []⟩,
          by simp [heq], by simp⟩
      · have hf : 0 < f := by
          simp only [MAX_RETRIES] at heq
          omega
        obtain ⟨r, hrec, hlen⟩ := ih (retry + 1) (by simp only [MAX_RETRIES]; omega) hf
        refine ⟨⟨r.response, ⟨m, uri, forwardHeaders hs, b⟩ :: r.sent, r.sleeps⟩, ?_, ?_⟩
        · simp [heq, hrec]
        · simp
          omega

theorem forwardLoopAux_sent (u : Nat → AttemptOutcome) (j : Nat → Nat) (m : String)
    (uri : UriParts) (hs : List (String × String)) (b : List Nat) :
    ∀ fuel retry r, forwardLoopAux u j m uri hs b retry fuel = some r →
      ∀ fr ∈ r.sent, fr = ⟨m, uri, forwardHeaders hs, b⟩ := by
  intro fuel
  induction fuel with
  | zero =>
    intro retry r hr
    simp [forwardLoopAux] at hr
  | succ f ih =>
    intro retry r hr fr hfr
    rw [forwardLoopAux_eq_succ] at hr
    cases hu : u retry with
    | success st rh rb =>
      rw [hu] at hr
      simp only [Option.some.injEq] at hr
      subst hr
      simpa using hfr
    | transportError =>
      rw [hu] at hr
      by_cases hlt : retry < MAX_RETRIES - 1
      · cases hrec : forwardLoopAux u j m uri hs b (retry + 1) f with
        | none => simp [hlt, hrec] at hr
        | some r' =>
          simp only [hlt, if_true, hrec, Option.some.injEq] at hr
          subst hr
          rcases List.mem_cons.mp hfr with h | h
          · exact h
          · exact ih (retry + 1) r' hrec fr h
      · simp only [hlt, if_false, Option.some.injEq] at hr
        subst hr
        simpa using hfr
    | timedOut =>
      rw [hu] at hr
      by_cases heq : retry = MAX_RETRIES - 1
      · simp only [heq, if_true, Option.some.injEq] at hr
        subst hr
        simpa using hfr
      · cases hrec : forwardLoopAux u j m uri hs b (retry + 1) f with
        | none => simp [heq, hrec] at hr
        | some r' =>
          simp only [heq, if_false, hrec, Option.some.injEq] at hr
          subst hr
          rcases List.mem_cons.mp hfr with h | h
          · exact h
          · exact ih (retry + 1) r' hrec fr h

theorem forwardLoopAux_sleeps (u : Nat → AttemptOutcome) (j : Nat → Nat) (m : String)
    (uri : UriParts) (hs : List (String × String)) (b : List Nat) :
    ∀ fuel retry r, forwardLoopAux u j m uri hs b retry fuel = some r →
      ∀ p ∈ r.sleeps, u p.1 = .transportError ∧ p.1 < MAX_RETRIES - 1 ∧
        p.2 = 2 ^ p.1 * 1000 + j p.1 := by
  intro fuel
  induction fuel with
  | zero =>
    intro retry r hr
    simp [forwardLoopAux] at hr
  | succ f ih =>
    intro retry r hr p hp
    rw [forwardLoopAux_eq_succ] at hr
    cases hu : u retry with
    | success st rh rb =>
      rw [hu] at hr
      simp only [Option.some.injEq] at hr
      subst hr
      simp at hp
    | transportError =>
      rw [hu] at hr
      by_cases hlt : retry < MAX_RETRIES - 1
      · cases hrec : forwardLoopAux u j m uri hs b (retry + 1) f with
        | none => simp [hlt, hrec] at hr
        | some r' =>
          simp only [hlt, if_true, hrec, Option.some.injEq] at hr
          subst hr
          rcases List.mem_cons.mp hp with h | h
          · subst h
            exact ⟨hu, hlt, rfl⟩
          · exact ih (retry + 1) r' hrec p h
      · simp only [hlt, if_false, Option.some.injEq] at hr
        subst hr
        simp at hp
    | timedOut =>
      rw [hu] at hr
      by_cases heq : retry = MAX_RETRIES - 1
      · simp only [heq, if_true, Option.some.injEq] at hr
        subst hr
        simp at hp
      · cases hrec : forwardLoopAux u j m uri hs b (retry + 1) f with
        | none => simp [heq, hrec] at hr
        | some r' =>
          simp only [heq, if_false, hrec, Option.some.injEq] at hr
          subst hr
          exact ih (retry + 1) r' hrec p (by simpa using hp)

theorem forwardLoopAux_first_success (u : Nat → AttemptOutcome) (j : Nat → Nat)
    (m : String) (uri : UriParts) (hs : List (String × String)) (b : List Nat)
    (a st : Nat) (rh : List (String × String)) (rb : List Nat)
    (ha : a < MAX_RETRIES) (hsucc : u a = .success st rh rb)
    (hfail : ∀ i, i < a → u i = .transportError ∨ u i = .timedOut) :
    ∃ sent sleeps, forwardLoopAux u j m uri hs b 0 MAX_RETRIES =
      some ⟨⟨st, [], rb⟩, sent, sleeps⟩ ∧ sent.length = a + 1 := by
  simp only [MAX_RETRIES] at ha ⊢
  interval_cases a
  · refine ⟨[⟨m, uri, forwardHeaders hs, b⟩], [], ?_, rfl⟩
    rw [forwardLoopAux_eq_succ]
    simp [hsucc]
  · rcases hfail 0 (by omega) with h0 | h0
    · refine ⟨[⟨m, uri, forwardHeaders hs, b⟩, ⟨m, uri, forwardHeaders hs, b⟩],
        [(0, 2 ^ 0 * 1000 + j 0)], ?_, rfl⟩
      rw [forwardLoopAux_eq_succ]
      simp only [h0, MAX_RETRIES]
      norm_num
      rw [forwardLoopAux_eq_succ]
      simp [hsucc]
    · refine ⟨[⟨m, uri, forwardHeaders hs, b⟩, ⟨m, uri, forwardHeaders hs, b⟩], [], ?_, rfl⟩
      rw [forwardLoopAux_eq_succ]
      simp only [h0, MAX_RETRIES]
      norm_num
      rw [forwardLoopAux_eq_succ]
      simp [hsucc]
  · rcases hfail 0 (by omega) with h0 | h0 <;> rcases hfail 1 (by omega) with h1 | h1
    · refine ⟨[⟨m, uri, forwardHeaders hs, b⟩, ⟨m, uri, forwardHeaders hs, b⟩,
        ⟨m, uri, forwardHeaders hs, b⟩],
        [(0, 2 ^ 0 * 1000 + j 0), (1, 2 ^ 1 * 1000 + j 1)], ?_, rfl⟩
      rw [forwardLoopAux_eq_succ]
      simp only [h0, MAX_RETRIES]
      norm_num
      rw [forwardLoopAux_eq_succ]
      simp only [h1, MAX_RETRIES]
      norm_num
      rw [forwardLoopAux_eq_succ]
      simp [hsucc]
    · refine ⟨[⟨m, uri, forwardHeaders hs, b⟩, ⟨m, uri, forwardHeaders hs, b⟩,
        ⟨m, uri, forwardHeaders hs, b⟩],
        [(0, 2 ^ 0 * 1000 + j 0)], ?_, rfl⟩
      rw [forwardLoopAux_eq_succ]
      simp only [h0, MAX_RETRIES]
      norm_num
      rw [forwardLoopAux_eq_succ]
      simp only [h1, MAX_RETRIES]
      norm_num
      rw [forwardLoopAux_eq_succ]
      simp [hsucc]
    · refine ⟨[⟨m, uri, forwardHeaders hs, b⟩, ⟨m, uri, forwardHeaders hs, b⟩,
        ⟨m, uri, forwardHeaders hs, b⟩],
        [(1, 2 ^ 1 * 1000 + j 1)], ?_, rfl⟩
      rw [forwardLoopAux_eq_succ]
      simp only [h0, MAX_RETRIES]
      norm_num
      rw [forwardLoopAux_eq_succ]
      simp only [h1, MAX_RETRIES]
      norm_num
      rw [forwardLoopAux_eq_succ]
      simp [hsucc]
    · refine ⟨[⟨m, uri, forwardHeaders hs, b⟩, ⟨m, uri, forwardHeaders hs, b⟩,
        ⟨m, uri, forwardHeaders hs, b⟩], [], ?_, rfl⟩
      rw [forwardLoopAux_eq_succ]
      simp only [h0, MAX_RETRIES]
      norm_num
      rw [forwardLoopAux_eq_succ]
      simp only [h1, MAX_RETRIES]
      norm_num
      rw [forwardLoopAux_eq_succ]
      simp [hsucc]

/-- Unfolding equation for proxy_handler: the validator always accepts, so the
handler is the match on construct_uri followed by the retry loop. -/
theorem proxy_handler_eq (req : IncomingRequest) (base : UriParts)
    (u : Nat → AttemptOutcome) (j : Nat → Nat) :
    proxy_handler req base u j =
      match construct_uri base req.uri with
      | .error _ => some ⟨⟨500, [], internalServerErrorBody⟩, [], []⟩
      | .ok uri => forwardLoopAux u j req.method uri req.headers req.body 0 MAX_RETRIES := rfl

/-- C1: when every attempt of a request fails with the same failure kind (a
transport error or a timeout), the final response status is 502 for transport
errors and 504 for timeouts. -/
theorem all_attempts_fail_status (req : IncomingRequest) (base uri : UriParts)
    (u : Nat → AttemptOutcome) (j : Nat → Nat)
    (hok : construct_uri base req.uri = .ok uri)
    (f : AttemptOutcome) (hf : f = .transportError ∨ f = .timedOut)
    (hall : ∀ a, a < MAX_RETRIES → u a = f) :
    ∃ r, proxy_handler req base u j = some r ∧
      r.response.status = if f = .transportError then 502 else 504 := by
  have h0 := hall 0 (by simp [MAX_RETRIES])
  have h1 := hall 1 (by simp [MAX_RETRIES])
  have h2 := hall 2 (by simp [MAX_RETRIES])
  rcases hf with hf | hf <;> subst hf
  · refine ⟨⟨⟨502, [], badGatewayBody⟩,
      [⟨req.method, uri, forwardHeaders req.headers, req.body⟩,
       ⟨req.method, uri, forwardHeaders req.headers, req.body⟩,
       ⟨req.method, uri, forwardHeaders req.headers, req.body⟩],
      [(0, 2 ^ 0 * 1000 + j 0), (1, 2 ^ 1 * 1000 + j 1)]⟩, ?_, by simp⟩
    rw [proxy_handler_eq, hok]
    simp only [MAX_RETRIES]
    rw [forwardLoopAux_eq_succ]
    simp only [h0, MAX_RETRIES]
    norm_num
    rw [forwardLoopAux_eq_succ]
    simp only [h1, MAX_RETRIES]
    norm_num
    rw [forwardLoopAux_eq_succ]
    simp only [h2, MAX_RETRIES]
    norm_num
  · refine ⟨⟨⟨504, [], gatewayTimeoutBody⟩,
      [⟨req.method, uri, forwardHeaders req.headers, req.body⟩,
       ⟨req.method, uri, forwardHeaders req.headers, req.body⟩,
       ⟨req.method, uri, forwardHeaders req.headers, req.body⟩], []⟩, ?_, by simp⟩
    rw [proxy_handler_eq, hok]
    simp only [MAX_RETRIES]
    rw [forwardLoopAux_eq_succ]
    simp only [h0, MAX_RETRIES]
    norm_num
    rw [forwardLoopAux_eq_succ]
    simp only [h1, MAX_RETRIES]
    norm_num
    rw [forwardLoopAux_eq_succ]
    simp only [h2, MAX_RETRIES]
    norm_num

/-- C1 witness: all three attempts fail with transport errors, status 502. -/
theorem all_attempts_fail_status_witness :
    ∃ r, proxy_handler exReq exBase allTransport zeroJitter = some r ∧
      r.response.status =
        if AttemptOutcome.transportError = AttemptOutcome.transportError then 502 else 504 :=
  all_attempts_fail_status exReq exBase exUri allTransport zeroJitter (by rfl)
    .transportError (Or.inl rfl) (fun a _ => rfl)

/-- C2: for every incoming request the retry loop returns a response (the
source's unreachable arm is never taken) and at most MAX_RETRIES forwarded
requests are issued to the upstream. -/
theorem bounded_attempts (req : IncomingRequest) (base : UriParts)
    (u : Nat → AttemptOutcome) (j : Nat → Nat) :
    ∃ r, proxy_handler req base u j = some r ∧ r.sent.length ≤ MAX_RETRIES := by
  rw [proxy_handler_eq]
  cases hcu : construct_uri base req.uri with
  | error e => exact ⟨⟨⟨500, [], internalServerErrorBody⟩, [], []⟩, rfl, by decide⟩
  | ok uri =>
    exact forwardLoopAux_total u j req.method uri req.headers req.body MAX_RETRIES 0 rfl
      (by decide)

/-- C3: every backoff sleep in a request's trace follows a transport-level
failure on an attempt that is not the last allowed one, and its duration for
attempt index a lies in [2^a*1000, 2^a*1000 + 1000) milliseconds; timeouts
never contribute a sleep. -/
theorem backoff_sleep_bounds (req : IncomingRequest) (base : UriParts)
    (u : Nat → AttemptOutcome) (j : Nat → Nat) (hj : ∀ a, j a < 1000)
    (r : LoopResult) (hr : proxy_handler req base u j = some r)
    (p : Nat × Nat) (hp : p ∈ r.sleeps) :
    u p.1 = .transportError ∧ p.1 + 1 < MAX_RETRIES ∧
      2 ^ p.1 * 1000 ≤ p.2 ∧ p.2 < 2 ^ p.1 * 1000 + 1000 := by
  rw [proxy_handler_eq] at hr
  cases hcu : construct_uri base req.uri with
  | error e =>
    rw [hcu] at hr
    simp only [Option.some.injEq] at hr
    subst hr
    simp at hp
  | ok uri =>
    rw [hcu] at hr
    obtain ⟨h1, h2, h3⟩ := forwardLoopAux_sleeps u j req.method uri req.headers req.body
      MAX_RETRIES 0 r hr p hp
    refine ⟨h1, ?_, ?_, ?_⟩
    · simp only [MAX_RETRIES] at h2 ⊢
      omega
    · rw [h3]
      exact Nat.le_add_right _ _
    · rw [h3]
      exact Nat.add_lt_add_left (hj p.1) _

/-- C3 witness: with transport errors on attempts 0 and 1 and zero jitter, the
sleep recorded for attempt 0 is exactly 1000 ms and satisfies the bounds. -/
theorem backoff_sleep_bounds_witness :
    twoFailThenOk 0 = .transportError ∧ 0 + 1 < MAX_RETRIES ∧
      2 ^ 0 * 1000 ≤ 1000 ∧ 1000 < 2 ^ 0 * 1000 + 1000 :=
  backoff_sleep_bounds exReq exBase twoFailThenOk zeroJitter (fun _ => by norm_num [zeroJitter])
    ⟨⟨200, [], [111, 107]⟩, [exFwd, exFwd, exFwd], [(0, 1000), (1, 2000)]⟩ (by rfl)
    (0, 1000) (by decide)

/-- C4: once the shutdown flag is set, every request of any path (the health
check path included) gets status 503 at once and the forwarding engine is not
invoked (the boolean in the result is false). -/
theorem draining_rejects_all (req : IncomingRequest) (base : UriParts)
    (u : Nat → AttemptOutcome) (j : Nat → Nat) :
    handle_request true req base u j =
      some (⟨503, [], bytesOfString "Server is shutting down"⟩, false) := rfl

/-- C5: on the first attempt whose upstream outcome is a response before the
per-attempt timeout, the proxy returns the upstream's status code with the
fully buffered upstream body, and issues no further attempts. -/
theorem upstream_response_forwarded (req : IncomingRequest) (base uri : UriParts)
    (u : Nat → AttemptOutcome) (j : Nat → Nat)
    (hok : construct_uri base req.uri = .ok uri)
    (a st : Nat) (rh : List (String × String)) (rb : List Nat)
    (ha : a < MAX_RETRIES) (hsucc : u a = .success st rh rb)
    (hfail : ∀ i, i < a → u i = .transportError ∨ u i = .timedOut) :
    ∃ r, proxy_handler req base u j = some r ∧
      r.response.status = st ∧ r.response.body = rb ∧ r.sent.length = a + 1 := by
  obtain ⟨sent, sleeps, hloop, hlen⟩ := forwardLoopAux_first_success u j req.method uri
    req.headers req.body a st rh rb ha hsucc hfail
  refine ⟨⟨⟨st, [], rb⟩, sent, sleeps⟩, ?_, rfl, rfl, hlen⟩
  rw [proxy_handler_eq, hok]
  exact hloop

/-- C5 witness: failures on attempts 0 and 1, success on attempt 2: the proxy
returns 200 with the upstream body after exactly three sends. -/
theorem upstream_response_forwarded_witness :
    ∃ r, proxy_handler exReq exBase twoFailThenOk zeroJitter = some r ∧
      r.response.status = 200 ∧ r.response.body = [111, 107] ∧ r.sent.length = 2 + 1 :=
  upstream_response_forwarded exReq exBase exUri twoFailThenOk zeroJitter (by rfl)
    2 200 [("content-type", "text/plain")] [111, 107] (by decide) (by rfl)
    (fun i hi => by interval_cases i <;> exact Or.inl rfl)

/-- C6: every forwarded request's header set has no key case-insensitively
equal to "host", and contains every other header of the incoming request
unchanged. -/
theorem host_header_stripped (req : IncomingRequest) (base : UriParts)
    (u : Nat → AttemptOutcome) (j : Nat → Nat)
    (r : LoopResult) (hr : proxy_handler req base u j = some r)
    (fr : ForwardedRequest) (hfr : fr ∈ r.sent) :
    (∀ h ∈ fr.headers, isHostName h.1 = false) ∧
    (∀ h ∈ req.headers, isHostName h.1 = false → h ∈ fr.headers) := by
  rw [proxy_handler_eq] at hr
  cases hcu : construct_uri base req.uri with
  | error e =>
    rw [hcu] at hr
    simp only [Option.some.injEq] at hr
    subst hr
    simp at hfr
  | ok uri =>
    rw [hcu] at hr
    have hfr' := forwardLoopAux_sent u j req.method uri req.headers req.body
      MAX_RETRIES 0 r hr fr hfr
    subst hfr'
    constructor
    · intro h hh
      have hmem := List.mem_filter.mp hh
      simpa using hmem.2
    · intro h hh hnot
      exact List.mem_filter.mpr ⟨hh, by simp [hnot]⟩

/-- C6 witness: a concrete request carrying a host header; the forwarded
requests drop it and keep the x-amz-date header. -/
theorem host_header_stripped_witness :
    (∀ h ∈ exFwd.headers, isHostName h.1 = false) ∧
    (∀ h ∈ exReq.headers, isHostName h.1 = false → h ∈ exFwd.headers) :=
  host_header_stripped exReq exBase twoFailThenOk zeroJitter
    ⟨⟨200, [], [111, 107]⟩, [exFwd, exFwd, exFwd], [(0, 1000), (1, 2000)]⟩ (by rfl)
    exFwd (by decide)

/-- C7: the incoming body is buffered once before the loop, and the body sent
on every attempt of the request is byte-for-byte that buffered body. -/
theorem body_replayed (req : IncomingRequest) (base : UriParts)
    (u : Nat → AttemptOutcome) (j : Nat → Nat)
    (r : LoopResult) (hr : proxy_handler req base u j = some r)
    (fr : ForwardedRequest) (hfr : fr ∈ r.sent) : fr.body = req.body := by
  rw [proxy_handler_eq] at hr
  cases hcu : construct_uri base req.uri with
  | error e =>
    rw [hcu] at hr
    simp only [Option.some.injEq] at hr
    subst hr
    simp at hfr
  | ok uri =>
    rw [hcu] at hr
    have hfr' := forwardLoopAux_sent u j req.method uri req.headers req.body
      MAX_RETRIES 0 r hr fr hfr
    rw [hfr']

/-- C7 witness: a request sent three times carries the original body bytes on
the forwarded request. -/
theorem body_replayed_witness : exFwd.body = exReq.body :=
  body_replayed exReq exBase twoFailThenOk zeroJitter
    ⟨⟨200, [], [111, 107]⟩, [exFwd, exFwd, exFwd], [(0, 1000), (1, 2000)]⟩ (by rfl)
    exFwd (by decide)

/-- C9: when the rewritten parts are not a syntactically valid URI,
construct_uri fails with an error, and the proxy surfaces it as status 500
immediately, with no attempt sent and no sleep performed. -/
theorem invalid_uri_gives_500 (req : IncomingRequest) (base : UriParts)
    (u : Nat → AttemptOutcome) (j : Nat → Nat)
    (h : uriPartsValid (rewrittenParts base req.uri) = false) :
    (∃ e, construct_uri base req.uri = .error e) ∧
    proxy_handler req base u j = some ⟨⟨500, [], internalServerErrorBody⟩, [], []⟩ := by
  obtain ⟨e, he⟩ := uriFromParts_of_invalid _ h
  have hcu : construct_uri base req.uri = .error e := he
  refine ⟨⟨e, hcu⟩, ?_⟩
  rw [proxy_handler_eq, hcu]

/-- C9 witness: a base with an authority but no scheme makes URI construction
fail and the handler answer 500 with an empty trace. -/
theorem invalid_uri_gives_500_witness :
    (∃ e, construct_uri exBadBase exReq.uri = .error e) ∧
    proxy_handler exReq exBadBase allTransport zeroJitter =
      some ⟨⟨500, [], internalServerErrorBody⟩, [], []⟩ :=
  invalid_uri_gives_500 exReq exBadBase allTransport zeroJitter (by rfl)

/-- C10: the response forwarded to the caller is built from the upstream
status code and buffered body only: its header list is empty, so upstream
response headers (content-type included) are dropped. -/
theorem upstream_headers_dropped (req : IncomingRequest) (base uri : UriParts)
    (u : Nat → AttemptOutcome) (j : Nat → Nat)
    (hok : construct_uri base req.uri = .ok uri)
    (a st : Nat) (rh : List (String × String)) (rb : List Nat)
    (ha : a < MAX_RETRIES) (hsucc : u a = .success st rh rb)
    (hfail : ∀ i, i < a → u i = .transportError ∨ u i = .timedOut) :
    ∃ r, proxy_handler req base u j = some r ∧ r.response = ⟨st, [], rb⟩ := by
  obtain ⟨sent, sleeps, hloop, hlen⟩ := forwardLoopAux_first_success u j req.method uri
    req.headers req.body a st rh rb ha hsucc hfail
  refine ⟨⟨⟨st, [], rb⟩, sent, sleeps⟩, ?_, rfl⟩
  rw [proxy_handler_eq, hok]
  exact hloop

/-- C10 witness: an upstream 200 response carrying a content-type header is
returned as status 200 with the body and no headers. -/
theorem upstream_headers_dropped_witness :
    ∃ r, proxy_handler exReq exBase immediateOk zeroJitter = some r ∧
      r.response = ⟨200, [], [111, 107]⟩ :=
  upstream_headers_dropped exReq exBase exUri immediateOk zeroJitter (by rfl)
    0 200 [("content-type", "text/plain")] [111, 107] (by decide) (by rfl)
    (fun i hi => absurd hi (by omega))
